import Mathlib

/-!
Verification of the voice-call orchestration core (call-server.ts) of the
skillhq/concierge repository, against its natural-language specification.

The embedding translates the handlers of `CallServer` (call-server.ts) into
pure Lean functions.  External provider adapters (Twilio signature
validation, the three preflight checks, call origination) are code outside
this module; they enter the embedding as explicit parameters (a boolean
validator, resolved preflight results, an `Except` origination result), so
every theorem quantifies over their behaviour.  Session-method invocations
performed by a handler (`updateStatus`, `speak`, `hangup`, ...) are recorded
as an explicit action trace, since the `CallSession` class lives in
call-session.ts; where a claim depends on `CallSession` internals the
corresponding definition is modelled from the specification and marked so.
-/

namespace Concierge

/-- Session status values of the call state machine (spec section 4.3):
`created → placing → ringing → connected → ended`. -/
inductive CallStatus where
  | created
  | placing
  | ringing
  | connected
  | ended
  deriving DecidableEq, Repr

/-- The per-session data visible to the server: current status and the
provider call reference once known (`session.callSid`). -/
structure SessionData where
  status : CallStatus
  callSid : Option String
  deriving DecidableEq, Repr

/-- The server's session table `Map<string, CallSession>`, embedded as an
insertion-ordered association list, matching JS `Map` semantics. -/
abbrev SessionTable := List (String × SessionData)

/-- `this.sessions.get(callId)` on the embedded table. -/
def getSession (t : SessionTable) (cid : String) : Option SessionData :=
  (t.find? (fun p => p.1 = cid)).map (·.2)

/-- `this.sessions.set(callId, session)`: JS `Map.set` updates an existing
key in place (keeping insertion order) and appends a fresh key at the end. -/
def setSession (t : SessionTable) (cid : String) (d : SessionData) : SessionTable :=
  if (t.find? (fun p => p.1 = cid)).isSome then
    t.map (fun p => if p.1 = cid then (cid, d) else p)
  else
    t ++ [(cid, d)]

/-- `this.sessions.delete(callId)`. -/
def deleteSession (t : SessionTable) (cid : String) : SessionTable :=
  t.filter (fun p => p.1 ≠ cid)

/-- Server-to-client messages (`ServerMessage` in call-types.ts), restricted
to the variants call-server.ts itself produces. -/
inductive ServerMessage where
  | call_started (callId : String) (callSid : String)
  | call_ringing (callId : String)
  | error (callId : Option String) (message : String)
  deriving DecidableEq, Repr

/-- WebSocket `readyState` values. -/
inductive ReadyState where
  | CONNECTING
  | OPEN
  | CLOSING
  | CLOSED
  deriving DecidableEq, Repr

/-- One connected control client: its raw connection handle (an id), the
socket state, and the sequence of messages delivered to it so far. -/
structure ControlClient where
  id : Nat
  readyState : ReadyState
  inbox : List ServerMessage
  deriving DecidableEq, Repr

/-- `ws.send(data)`: the message is appended to the client's delivery
sequence. -/
def sendTo (c : ControlClient) (msg : ServerMessage) : ControlClient :=
  { c with inbox := c.inbox ++ [msg] }

/-- `broadcastToControl` (call-server.ts lines 596-603): send the message to
every control client whose `readyState` is `OPEN`; all other clients in the
set are skipped with no queuing and no retry. -/
def broadcastToControl (clients : List ControlClient) (msg : ServerMessage) :
    List ControlClient :=
  clients.map (fun c => if c.readyState = ReadyState.OPEN then sendTo c msg else c)

/-- A sequence of broadcasts, in emission order: each emitted message is
passed through `broadcastToControl` in turn. -/
def broadcastAll (clients : List ControlClient) : List ServerMessage → List ControlClient
  | [] => clients
  | m :: ms => broadcastAll (broadcastToControl clients m) ms

/-- A session-method invocation performed by a server handler on the session
resolved from the table.  The method bodies live in call-session.ts; the
handler embeddings record which methods they invoke, with which arguments. -/
inductive SessionAction where
  | updateStatus (status : String)
  | speak (text : String)
  | hangup
  deriving DecidableEq, Repr

/-- Result of one preflight check, as consumed by `initiateCallInternal`:
the `ok` flag and the human-readable `message` of the adapters' result
objects. -/
structure PreflightResult where
  ok : Bool
  message : String
  deriving DecidableEq, Repr

/-- The result of an async server operation: the value returned, or the
message of the error thrown. -/
inductive CallResult (α : Type) where
  | ok (value : α)
  | thrown (message : String)
  deriving DecidableEq, Repr

/-- Outcome of `initiateCallInternal`: the returned call id or thrown error,
the session table afterwards, the control-plane broadcasts performed, and
how many times the provider origination action (`initiateCall` in
providers/twilio.ts) was invoked. -/
structure InitiateOutcome where
  result : CallResult String
  sessions : SessionTable
  broadcasts : List ServerMessage
  originationAttempts : Nat
  deriving DecidableEq, Repr

/-- `initiateCallInternal` (call-server.ts lines 538-591).  The three
preflight results are the values resolved by `Promise.all`; `originate` is
the result the provider origination action would produce (`.ok callSid` or a
thrown error), consumed only if the code reaches that call.  The first
preflight with `ok = false` (in the order twilio, deepgram, elevenlabs,
matching the source array) aborts the operation with its message before any
session is constructed.  Otherwise a session is created with the fresh
`callId`, inserted into the table, and origination is attempted: on success
`setCallSid` records the provider reference and `call_started` is broadcast;
on failure the session is deleted again and the error is rethrown.  Events
of the just-created session are forwarded by subscriptions installed here,
but no session event can fire during this function itself, so the broadcast
list contains only what this function emits. -/
def initiateCallInternal (twilioPre deepgramPre elevenPre : PreflightResult)
    (callId : String) (originate : CallResult String)
    (sessions : SessionTable) : InitiateOutcome :=
  match [twilioPre, deepgramPre, elevenPre].find? (fun r => !r.ok) with
  | some failed =>
      { result := CallResult.thrown failed.message
        sessions := sessions
        broadcasts := []
        originationAttempts := 0 }
  | none =>
      let sessions1 := setSession sessions callId { status := CallStatus.created, callSid := none }
      match originate with
      | CallResult.ok callSid =>
          { result := CallResult.ok callId
            sessions := setSession sessions1 callId
              { status := CallStatus.created, callSid := some callSid }
            broadcasts := [ServerMessage.call_started callId callSid]
            originationAttempts := 1 }
      | CallResult.thrown err =>
          { result := CallResult.thrown err
            sessions := deleteSession sessions1 callId
            broadcasts := []
            originationAttempts := 1 }

/-- JS truthiness of a string-or-absent value: `undefined`, `null` and the
empty string are falsy. -/
def isTruthy : Option String → Bool
  | none => false
  | some s => s ≠ ""

/-- An inbound `/twilio/status` request, as seen by the end-of-body handler:
the `x-twilio-signature` header (absent when the client sent none), the
`callId` query parameter, and the `CallStatus` field of the parsed body. -/
structure TwilioStatusRequest where
  signature : Option String
  callId : Option String
  callStatus : String
  deriving DecidableEq, Repr

/-- What a webhook handler did: the HTTP status written, the session-method
invocations performed (paired with the call id of the target session), and
the control-plane broadcasts. -/
structure StatusResult where
  httpStatus : Nat
  actions : List (String × SessionAction)
  broadcasts : List ServerMessage
  deriving DecidableEq, Repr

/-- The session dispatch of `handleTwilioStatus` (call-server.ts lines
380-400): resolve the session from the `callId` query parameter (JS `callId ?
this.sessions.get(callId) : null`), then switch on `CallStatus`:
`ringing` updates the session and broadcasts `call_ringing`; the terminal
statuses update the session; `in-progress` (and any unlisted value) does
nothing.  The response is always `200 {received:true}`. -/
def twilioStatusDispatch (sessions : SessionTable) (req : TwilioStatusRequest) :
    StatusResult :=
  match req.callId with
  | none => { httpStatus := 200, actions := [], broadcasts := [] }
  | some cid =>
      if cid = "" then { httpStatus := 200, actions := [], broadcasts := [] }
      else
        match getSession sessions cid with
        | none => { httpStatus := 200, actions := [], broadcasts := [] }
        | some _ =>
            if req.callStatus = "ringing" then
              { httpStatus := 200
                actions := [(cid, SessionAction.updateStatus "ringing")]
                broadcasts := [ServerMessage.call_ringing cid] }
            else if req.callStatus = "completed" ∨ req.callStatus = "busy" ∨
                req.callStatus = "failed" ∨ req.callStatus = "no-answer" then
              { httpStatus := 200
                actions := [(cid, SessionAction.updateStatus req.callStatus)]
                broadcasts := [] }
            else
              { httpStatus := 200, actions := [], broadcasts := [] }

/-- `handleTwilioStatus` (call-server.ts lines 352-405).  `validateSig`
abstracts `validateWebhookSignature(config, signature, webhookUrl, params)`
applied to this request's reconstructed URL and parsed body.  The source
guard is `if (signature && !validateWebhookSignature(...))`: the signature is
checked only when the header is present and non-empty (JS truthiness); a
present-but-invalid signature yields `403 {error}` with no session action and
no broadcast, every other request proceeds to the dispatch. -/
def handleTwilioStatus (validateSig : String → Bool) (sessions : SessionTable)
    (req : TwilioStatusRequest) : StatusResult :=
  if isTruthy req.signature && !validateSig (req.signature.getD "") then
    { httpStatus := 403, actions := [], broadcasts := [] }
  else
    twilioStatusDispatch sessions req

/-- An inbound `/twilio/voice` request: the signature header and the `callId`
query parameter (its body is used only for signature validation). -/
structure TwilioVoiceRequest where
  signature : Option String
  callId : Option String
  deriving DecidableEq, Repr

/-- The body written by the voice webhook handler. -/
inductive VoiceBody where
  | invalidSignature
  | errorTwiml
  | mediaStreamsTwiml (callId : String)
  deriving DecidableEq, Repr

/-- HTTP status plus body of the voice webhook response. -/
structure VoiceResult where
  httpStatus : Nat
  body : VoiceBody
  deriving DecidableEq, Repr

/-- `handleTwilioVoice` (call-server.ts lines 308-347): same signature guard
as the status webhook; then, if the `callId` query parameter is missing or
not in the session table, answer `200` with apology TwiML
(`generateErrorTwiml`), else `200` with Media-Streams TwiML embedding the
call id.  The handler performs no session action in any branch. -/
def handleTwilioVoice (validateSig : String → Bool) (sessions : SessionTable)
    (req : TwilioVoiceRequest) : VoiceResult :=
  if isTruthy req.signature && !validateSig (req.signature.getD "") then
    { httpStatus := 403, body := VoiceBody.invalidSignature }
  else if isTruthy req.callId && (getSession sessions (req.callId.getD "")).isSome then
    { httpStatus := 200, body := VoiceBody.mediaStreamsTwiml (req.callId.getD "") }
  else
    { httpStatus := 200, body := VoiceBody.errorTwiml }

/-- Control-plane client messages (`ClientMessage` in call-types.ts). -/
inductive ClientMessage where
  | initiate_call (phoneNumber goal : String) (context : Option String)
  | speak (callId text : String)
  | hangup (callId : String)
  deriving DecidableEq, Repr

/-- The environment `initiateCallInternal` consumes when invoked from the
control plane: the resolved preflight results, the fresh call id drawn from
`randomUUID`, and the origination result. -/
structure InitiateEnv where
  twilioPre : PreflightResult
  deepgramPre : PreflightResult
  elevenPre : PreflightResult
  freshCallId : String
  originate : CallResult String
  deriving DecidableEq, Repr

/-- Outcome of `handleControlMessage` for one message: the value returned or
error thrown (a thrown error is caught by the connection handler), the
replies sent with `ws.send` to the originating client only, the broadcasts,
the session table afterwards, and the session-method invocations. -/
structure ControlOutcome where
  result : CallResult Unit
  replies : List ServerMessage
  broadcasts : List ServerMessage
  sessions : SessionTable
  actions : List (String × SessionAction)
  deriving DecidableEq, Repr

/-- `handleControlMessage` (call-server.ts lines 442-475).  `initiate_call`
delegates to `initiateCallInternal` (which broadcasts `call_started`
itself).  `speak` on a known call invokes `session.speak(text)`; on an
unknown call it sends an error reply to the originating socket only.
`hangup` on a known call invokes `session.hangup()`; on an unknown call the
source has no else-branch: nothing is sent and nothing is invoked. -/
def handleControlMessage (env : InitiateEnv) (sessions : SessionTable)
    (msg : ClientMessage) : ControlOutcome :=
  match msg with
  | ClientMessage.initiate_call _ _ _ =>
      let o := initiateCallInternal env.twilioPre env.deepgramPre env.elevenPre
        env.freshCallId env.originate sessions
      { result :=
          match o.result with
          | CallResult.ok _ => CallResult.ok ()
          | CallResult.thrown e => CallResult.thrown e
        replies := []
        broadcasts := o.broadcasts
        sessions := o.sessions
        actions := [] }
  | ClientMessage.speak cid text =>
      match getSession sessions cid with
      | some _ =>
          { result := CallResult.ok (), replies := [], broadcasts := []
            sessions := sessions, actions := [(cid, SessionAction.speak text)] }
      | none =>
          { result := CallResult.ok ()
            replies := [ServerMessage.error (some cid) "Call not found"]
            broadcasts := [], sessions := sessions, actions := [] }
  | ClientMessage.hangup cid =>
      match getSession sessions cid with
      | some _ =>
          { result := CallResult.ok (), replies := [], broadcasts := []
            sessions := sessions, actions := [(cid, SessionAction.hangup)] }
      | none =>
          { result := CallResult.ok (), replies := [], broadcasts := []
            sessions := sessions, actions := [] }

/-- One parsed media-plane message: its `event` field and the value of
`msg.start?.customParameters?.callId` (absent when the path is missing). -/
structure MediaMessage where
  event : String
  callId : Option String
  deriving DecidableEq, Repr

/-- Effects of the media-plane message handler on the outside world:
closing the socket with a code and reason, or handing the connection to the
resolved session's `initializeMediaStream`. -/
inductive MediaEffect where
  | close (code : Nat) (reason : String)
  | initStream (callId : String)
  deriving DecidableEq, Repr

/-- Per-connection state of `handleMediaStreamConnection`: the
`sessionInitialized` flag captured by the message listener. -/
structure MediaConnState where
  sessionInit : Bool
  deriving DecidableEq, Repr

/-- The `ws.on('message')` body of `handleMediaStreamConnection`
(call-server.ts lines 487-524) for one message: only a `start` event with
the flag still unset is examined; a missing (or empty, by JS truthiness)
`callId` closes with `1008 "Missing callId"`; an identifier not in the
session table closes with `1008 "Call not found"`; otherwise the flag is set
and the connection is handed to the session's media-bridge entry point. -/
def mediaStep (sessions : SessionTable) (st : MediaConnState) (msg : MediaMessage) :
    MediaConnState × List MediaEffect :=
  if msg.event = "start" && !st.sessionInit then
    if !(isTruthy msg.callId) then
      (st, [MediaEffect.close 1008 "Missing callId"])
    else
      let cid := msg.callId.getD ""
      match getSession sessions cid with
      | none => (st, [MediaEffect.close 1008 "Call not found"])
      | some _ => ({ st with sessionInit := true }, [MediaEffect.initStream cid])
  else
    (st, [])

/-- A whole media connection: the handler applied to each message in arrival
order, each against the session table current at that moment. -/
def processMedia (st : MediaConnState) :
    List (SessionTable × MediaMessage) → MediaConnState × List MediaEffect
  | [] => (st, [])
  | (sessions, msg) :: rest =>
      let step := mediaStep sessions st msg
      let out := processMedia step.1 rest
      (out.1, step.2 ++ out.2)

/-- Number of `initStream` effects in an effect list. -/
def countInits (effs : List MediaEffect) : Nat :=
  (effs.filter (fun e =>
    match e with
    | MediaEffect.initStream _ => true
    | _ => false)).length

/-- Modelled from the spec: `call-session.ts` (the `CallSession` class) is
not among the provided sources, so the session-side state touched by
`hangup()` is taken from spec section 4.3: the current status, the number of
`ended` events emitted, and the number of bridge teardowns run. -/
structure SessionState where
  status : CallStatus
  endedEvents : Nat
  teardowns : Nat
  deriving DecidableEq, Repr

/-- Modelled from the spec: `CallSession.hangup()` per spec section 4.3 —
idempotent; if already `ended` it returns immediately (no teardown, no
event); otherwise it instructs the telephony adapter to terminate the call,
tears down the bridge, transitions to `ended`, and reaching `ended` emits
exactly one completion event. -/
def SessionState.hangup (s : SessionState) : SessionState :=
  if s.status = CallStatus.ended then s
  else
    { status := CallStatus.ended
      endedEvents := s.endedEvents + 1
      teardowns := s.teardowns + 1 }

end Concierge

namespace Concierge

theorem find?_none_key_absent {cid : String} :
    ∀ t : SessionTable, t.find? (fun p => p.1 = cid) = none →
      t.filter (fun p => p.1 ≠ cid) = t := by
  intro t
  induction t with
  | nil => intro _; rfl
  | cons a l ih =>
      intro h
      by_cases hc : a.1 = cid
      · simp [List.find?, hc] at h
      · have h' : l.find? (fun p => p.1 = cid) = none := by
          simpa [List.find?, hc] using h
        have hl := ih h'
        rw [List.filter_cons_of_pos (by simp [hc]), hl]

theorem delete_set_fresh {t : SessionTable} {cid : String} {d : SessionData}
    (h : getSession t cid = none) :
    deleteSession (setSession t cid d) cid = t := by
  have hf : t.find? (fun p => p.1 = cid) = none := by
    unfold getSession at h
    cases hfind : t.find? (fun p => p.1 = cid) with
    | none => rfl
    | some v => simp [hfind] at h
  unfold setSession deleteSession
  rw [hf]
  simp only [Option.isSome_none, Bool.false_eq_true, if_false, List.filter_append]
  rw [find?_none_key_absent t hf]
  simp

/-- C2: if any one of the three preflight checks resolves not-ok,
`initiateCallInternal` fails with that check's message, the session table is
unchanged (no session, no table entry, so the `/status` `activeCalls` count
is unchanged), and the telephony origination action is never invoked — hence
origination happens only after all three checks are ok. -/
theorem c2_preflight_gate (t d e : PreflightResult) (cid : String)
    (orig : CallResult String) (sessions : SessionTable)
    (h : (t.ok && d.ok && e.ok) = false) :
    (initiateCallInternal t d e cid orig sessions).sessions = sessions ∧
    (initiateCallInternal t d e cid orig sessions).originationAttempts = 0 ∧
    ∃ r, (r = t ∨ r = d ∨ r = e) ∧ r.ok = false ∧
      (initiateCallInternal t d e cid orig sessions).result =
        CallResult.thrown r.message := by
  cases ht : t.ok with
  | false =>
      refine ⟨?_, ?_, t, Or.inl rfl, ht, ?_⟩ <;>
        simp [initiateCallInternal, List.find?, ht]
  | true =>
      cases hd : d.ok with
      | false =>
          refine ⟨?_, ?_, d, Or.inr (Or.inl rfl), hd, ?_⟩ <;>
            simp [initiateCallInternal, List.find?, ht, hd]
      | true =>
          cases he : e.ok with
          | false =>
              refine ⟨?_, ?_, e, Or.inr (Or.inr rfl), he, ?_⟩ <;>
                simp [initiateCallInternal, List.find?, ht, hd, he]
          | true => simp [ht, hd, he] at h

/-- Witness for C2 at a concrete input: the transcription preflight fails,
so the operation throws its message, the table stays empty, and origination
is never attempted. -/
theorem c2_preflight_gate_witness :
    ((PreflightResult.mk true "Twilio account reachable").ok &&
      (PreflightResult.mk false "Deepgram preflight failed: invalid credential").ok &&
      (PreflightResult.mk true "ElevenLabs budget ok").ok) = false ∧
    ((initiateCallInternal (PreflightResult.mk true "Twilio account reachable")
        (PreflightResult.mk false "Deepgram preflight failed: invalid credential")
        (PreflightResult.mk true "ElevenLabs budget ok")
        "call-1" (CallResult.ok "CA123") []).sessions = [] ∧
      (initiateCallInternal (PreflightResult.mk true "Twilio account reachable")
        (PreflightResult.mk false "Deepgram preflight failed: invalid credential")
        (PreflightResult.mk true "ElevenLabs budget ok")
        "call-1" (CallResult.ok "CA123") []).originationAttempts = 0 ∧
      ∃ r, (r = PreflightResult.mk true "Twilio account reachable" ∨
            r = PreflightResult.mk false "Deepgram preflight failed: invalid credential" ∨
            r = PreflightResult.mk true "ElevenLabs budget ok") ∧ r.ok = false ∧
        (initiateCallInternal (PreflightResult.mk true "Twilio account reachable")
          (PreflightResult.mk false "Deepgram preflight failed: invalid credential")
          (PreflightResult.mk true "ElevenLabs budget ok")
          "call-1" (CallResult.ok "CA123") []).result = CallResult.thrown r.message) :=
  ⟨by decide, c2_preflight_gate _ _ _ _ _ _ (by decide)⟩

/-- C5: when the provider origination action fails after the session was
created and inserted by `initiateCallInternal`, the session is removed again
(the table ends exactly as it started), the error is propagated to the
caller, and no event at all — in particular no `call_started` — is broadcast
to control clients. -/
theorem c5_origination_failure (t d e : PreflightResult) (cid err : String)
    (sessions : SessionTable)
    (ht : t.ok = true) (hd : d.ok = true) (he : e.ok = true)
    (hfresh : getSession sessions cid = none) :
    (initiateCallInternal t d e cid (CallResult.thrown err) sessions).result =
        CallResult.thrown err ∧
    (initiateCallInternal t d e cid (CallResult.thrown err) sessions).sessions = sessions ∧
    (initiateCallInternal t d e cid (CallResult.thrown err) sessions).broadcasts = [] := by
  have key : deleteSession
      (setSession sessions cid { status := CallStatus.created, callSid := none }) cid =
      sessions := delete_set_fresh hfresh
  refine ⟨?_, ?_, ?_⟩ <;>
    simp [initiateCallInternal, List.find?, ht, hd, he, key]

/-- Witness for C5 at a concrete input: healthy preflights, one pre-existing
session, origination throws; the table returns to exactly the pre-existing
session and nothing is broadcast. -/
theorem c5_origination_failure_witness :
    (PreflightResult.mk true "t-ok").ok = true ∧
    (PreflightResult.mk true "d-ok").ok = true ∧
    (PreflightResult.mk true "e-ok").ok = true ∧
    getSession [("other", SessionData.mk CallStatus.ringing (some "CA0"))] "call-2" = none ∧
    ((initiateCallInternal (PreflightResult.mk true "t-ok") (PreflightResult.mk true "d-ok")
        (PreflightResult.mk true "e-ok") "call-2" (CallResult.thrown "Twilio API error 21211")
        [("other", SessionData.mk CallStatus.ringing (some "CA0"))]).result =
        CallResult.thrown "Twilio API error 21211" ∧
      (initiateCallInternal (PreflightResult.mk true "t-ok") (PreflightResult.mk true "d-ok")
        (PreflightResult.mk true "e-ok") "call-2" (CallResult.thrown "Twilio API error 21211")
        [("other", SessionData.mk CallStatus.ringing (some "CA0"))]).sessions =
        [("other", SessionData.mk CallStatus.ringing (some "CA0"))] ∧
      (initiateCallInternal (PreflightResult.mk true "t-ok") (PreflightResult.mk true "d-ok")
        (PreflightResult.mk true "e-ok") "call-2" (CallResult.thrown "Twilio API error 21211")
        [("other", SessionData.mk CallStatus.ringing (some "CA0"))]).broadcasts = []) :=
  ⟨rfl, rfl, rfl, by decide,
    c5_origination_failure _ _ _ _ _ _ rfl rfl rfl (by decide)⟩

/-- C1 counterexample: with a configuration under which no signature
validates (`validateSig` constantly false), a `/twilio/status` request that
carries no signature header at all is accepted with `200` and mutates the
live session (`updateStatus "completed"`): the payload is trusted although
no signature was ever validated, instead of the request being rejected with
an authentication failure and no session mutation. -/
theorem c1_unsigned_webhook_trusted :
    handleTwilioStatus (fun _ => false)
      [("c1", SessionData.mk CallStatus.ringing (some "CA1"))]
      (TwilioStatusRequest.mk none (some "c1") "completed") =
    StatusResult.mk 200 [("c1", SessionAction.updateStatus "completed")] [] := by
  decide

/-- C1 (amended): only requests that carry a non-empty signature header have
it validated; for those, an invalid signature is rejected with `403`, no
session-method invocation and no broadcast on `/twilio/status`, and `403`
with no TwiML on `/twilio/voice`.  Requests without a signature header skip
validation entirely and are processed. -/
theorem c1_signature_validation (validateSig : String → Bool)
    (sessions : SessionTable) (sreq : TwilioStatusRequest)
    (vreq : TwilioVoiceRequest) (s : String) (hs : s ≠ "")
    (hsig : sreq.signature = some s) (hvsig : vreq.signature = some s)
    (hbad : validateSig s = false) :
    handleTwilioStatus validateSig sessions sreq = StatusResult.mk 403 [] [] ∧
    handleTwilioVoice validateSig sessions vreq =
      VoiceResult.mk 403 VoiceBody.invalidSignature := by
  constructor
  · simp [handleTwilioStatus, hsig, isTruthy, hs, hbad]
  · simp [handleTwilioVoice, hvsig, isTruthy, hs, hbad]

/-- Witness for the amended C1 at a concrete input: a present signature that
the validator rejects yields `403` with no session action on both webhooks. -/
theorem c1_signature_validation_witness :
    ("sig-bad" : String) ≠ "" ∧
    (TwilioStatusRequest.mk (some "sig-bad") (some "c1") "completed").signature =
      some "sig-bad" ∧
    (TwilioVoiceRequest.mk (some "sig-bad") (some "c1")).signature = some "sig-bad" ∧
    (fun (_ : String) => false) "sig-bad" = false ∧
    (handleTwilioStatus (fun _ => false)
        [("c1", SessionData.mk CallStatus.ringing (some "CA1"))]
        (TwilioStatusRequest.mk (some "sig-bad") (some "c1") "completed") =
        StatusResult.mk 403 [] [] ∧
      handleTwilioVoice (fun _ => false)
        [("c1", SessionData.mk CallStatus.ringing (some "CA1"))]
        (TwilioVoiceRequest.mk (some "sig-bad") (some "c1")) =
        VoiceResult.mk 403 VoiceBody.invalidSignature) :=
  ⟨by decide, rfl, rfl, rfl,
    c1_signature_validation _ _ _ _ _ (by decide) rfl rfl rfl⟩

/-- C3 counterexample: a `hangup` control message addressed at an unknown
call identifier produces no reply at all to the originating client (and no
broadcast): the source's `hangup` case has no else-branch, so no error reply
is sent, contrary to the claim. -/
theorem c3_hangup_unknown_silent :
    handleControlMessage
      (InitiateEnv.mk (PreflightResult.mk true "t") (PreflightResult.mk true "d")
        (PreflightResult.mk true "e") "fresh" (CallResult.ok "CA"))
      [] (ClientMessage.hangup "c1") =
    ControlOutcome.mk (CallResult.ok ()) [] [] [] [] := by
  decide

/-- C3 (amended): a `speak` message for an unknown call identifier yields an
error reply sent to the originating client only, with nothing broadcast to
the other control clients; a `hangup` message for an unknown call identifier
is silently ignored — no reply, no broadcast, no session action. -/
theorem c3_unknown_call_error_scope (env : InitiateEnv) (sessions : SessionTable)
    (cid text : String) (h : getSession sessions cid = none) :
    (handleControlMessage env sessions (ClientMessage.speak cid text)).replies =
        [ServerMessage.error (some cid) "Call not found"] ∧
    (handleControlMessage env sessions (ClientMessage.speak cid text)).broadcasts = [] ∧
    (handleControlMessage env sessions (ClientMessage.hangup cid)).replies = [] ∧
    (handleControlMessage env sessions (ClientMessage.hangup cid)).broadcasts = [] ∧
    (handleControlMessage env sessions (ClientMessage.hangup cid)).actions = [] := by
  refine ⟨?_, ?_, ?_, ?_, ?_⟩ <;> simp [handleControlMessage, h]

/-- Witness for the amended C3 at a concrete input: unknown call `c9` with
an empty session table. -/
theorem c3_unknown_call_error_scope_witness :
    getSession [] "c9" = none ∧
    ((handleControlMessage
        (InitiateEnv.mk (PreflightResult.mk true "t") (PreflightResult.mk true "d")
          (PreflightResult.mk true "e") "fresh" (CallResult.ok "CA"))
        [] (ClientMessage.speak "c9" "hello")).replies =
          [ServerMessage.error (some "c9") "Call not found"] ∧
      (handleControlMessage
        (InitiateEnv.mk (PreflightResult.mk true "t") (PreflightResult.mk true "d")
          (PreflightResult.mk true "e") "fresh" (CallResult.ok "CA"))
        [] (ClientMessage.speak "c9" "hello")).broadcasts = [] ∧
      (handleControlMessage
        (InitiateEnv.mk (PreflightResult.mk true "t") (PreflightResult.mk true "d")
          (PreflightResult.mk true "e") "fresh" (CallResult.ok "CA"))
        [] (ClientMessage.hangup "c9")).replies = [] ∧
      (handleControlMessage
        (InitiateEnv.mk (PreflightResult.mk true "t") (PreflightResult.mk true "d")
          (PreflightResult.mk true "e") "fresh" (CallResult.ok "CA"))
        [] (ClientMessage.hangup "c9")).broadcasts = [] ∧
      (handleControlMessage
        (InitiateEnv.mk (PreflightResult.mk true "t") (PreflightResult.mk true "d")
          (PreflightResult.mk true "e") "fresh" (CallResult.ok "CA"))
        [] (ClientMessage.hangup "c9")).actions = []) :=
  ⟨rfl, c3_unknown_call_error_scope _ _ _ "hello" rfl⟩

/-- C4 counterexample: at concrete inputs, the connection whose first
`start` message lacks a call identifier and the one whose identifier matches
no live session are both closed with the same status code `1008` — the codes
are not distinct; only the reason strings differ. -/
theorem c4_close_codes_not_distinct :
    (mediaStep [] (MediaConnState.mk false)
        (MediaMessage.mk "start" none)).2 =
      [MediaEffect.close 1008 "Missing callId"] ∧
    (mediaStep [] (MediaConnState.mk false)
        (MediaMessage.mk "start" (some "c9"))).2 =
      [MediaEffect.close 1008 "Call not found"] := by
  decide

/-- C4 (amended): a first `start` message lacking a call identifier closes
the connection with `1008 "Missing callId"`, and one whose identifier does
not match a live session closes it with `1008 "Call not found"` — the same
close code, distinguished only by the reason string; in both cases the
handler state is unchanged and no session is touched (the effects contain no
media-bridge hand-off). -/
theorem c4_close_behavior (sessions : SessionTable) (cid : String)
    (st : MediaConnState) (hst : st.sessionInit = false)
    (hcid : cid ≠ "") (hfresh : getSession sessions cid = none) :
    mediaStep sessions st (MediaMessage.mk "start" none) =
      (st, [MediaEffect.close 1008 "Missing callId"]) ∧
    mediaStep sessions st (MediaMessage.mk "start" (some cid)) =
      (st, [MediaEffect.close 1008 "Call not found"]) ∧
    ("Missing callId" : String) ≠ "Call not found" := by
  refine ⟨?_, ?_, by decide⟩
  · simp [mediaStep, hst, isTruthy]
  · simp [mediaStep, hst, isTruthy, hcid, hfresh]

/-- Witness for the amended C4 at a concrete input: fresh connection state,
empty session table, unknown identifier `c9`. -/
theorem c4_close_behavior_witness :
    (MediaConnState.mk false).sessionInit = false ∧
    ("c9" : String) ≠ "" ∧
    getSession [] "c9" = none ∧
    (mediaStep [] (MediaConnState.mk false) (MediaMessage.mk "start" none) =
        (MediaConnState.mk false, [MediaEffect.close 1008 "Missing callId"]) ∧
      mediaStep [] (MediaConnState.mk false) (MediaMessage.mk "start" (some "c9")) =
        (MediaConnState.mk false, [MediaEffect.close 1008 "Call not found"]) ∧
      ("Missing callId" : String) ≠ "Call not found") :=
  ⟨rfl, by decide, rfl, c4_close_behavior _ _ _ rfl (by decide) rfl⟩

/-- C6: `hangup()` is idempotent — the second call on the same session (in
particular on an already-ended one) returns the state unchanged, re-running
no teardown; starting from a session that has not ended and has emitted no
`ended` event, one or two `hangup()` calls leave exactly one emitted `ended`
event.  (`CallSession` is modelled from the spec, see `SessionState.hangup`.) -/
theorem c6_hangup_idempotent (s : SessionState)
    (hended : s.status ≠ CallStatus.ended) (h0 : s.endedEvents = 0) :
    s.hangup.hangup = s.hangup ∧
    s.hangup.endedEvents = 1 ∧
    s.hangup.hangup.endedEvents = 1 ∧
    s.hangup.hangup.teardowns = s.hangup.teardowns := by
  have h1 : s.hangup = SessionState.mk CallStatus.ended (s.endedEvents + 1) (s.teardowns + 1) := by
    simp [SessionState.hangup, hended]
  have h2 : s.hangup.hangup = s.hangup := by
    rw [h1]; simp [SessionState.hangup]
  refine ⟨h2, ?_, ?_, ?_⟩
  · rw [h1]; simp [h0]
  · rw [h2, h1]; simp [h0]
  · rw [h2]

/-- Witness for C6 at a concrete input: a connected session with no prior
`ended` event. -/
theorem c6_hangup_idempotent_witness :
    (SessionState.mk CallStatus.connected 0 0).status ≠ CallStatus.ended ∧
    (SessionState.mk CallStatus.connected 0 0).endedEvents = 0 ∧
    ((SessionState.mk CallStatus.connected 0 0).hangup.hangup =
        (SessionState.mk CallStatus.connected 0 0).hangup ∧
      (SessionState.mk CallStatus.connected 0 0).hangup.endedEvents = 1 ∧
      (SessionState.mk CallStatus.connected 0 0).hangup.hangup.endedEvents = 1 ∧
      (SessionState.mk CallStatus.connected 0 0).hangup.hangup.teardowns =
        (SessionState.mk CallStatus.connected 0 0).hangup.teardowns) :=
  ⟨by decide, rfl, c6_hangup_idempotent _ (by decide) rfl⟩

theorem countInits_append (a b : List MediaEffect) :
    countInits (a ++ b) = countInits a + countInits b := by
  simp [countInits, List.filter_append]

theorem mediaStep_pot (sessions : SessionTable) (st : MediaConnState)
    (msg : MediaMessage) :
    countInits (mediaStep sessions st msg).2 +
      (if (mediaStep sessions st msg).1.sessionInit then 0 else 1) ≤
      (if st.sessionInit then 0 else 1) := by
  obtain ⟨flag⟩ := st
  cases flag with
  | true => simp [mediaStep, countInits]
  | false =>
      by_cases hev : msg.event = "start"
      · by_cases htr : isTruthy msg.callId = true
        · cases hg : getSession sessions (msg.callId.getD "") with
          | none => simp [mediaStep, hev, htr, hg, countInits]
          | some v => simp [mediaStep, hev, htr, hg, countInits]
        · simp [mediaStep, hev, htr, countInits]
      · simp [mediaStep, hev, countInits]

theorem processMedia_pot (steps : List (SessionTable × MediaMessage))
    (st : MediaConnState) :
    countInits (processMedia st steps).2 +
      (if (processMedia st steps).1.sessionInit then 0 else 1) ≤
      (if st.sessionInit then 0 else 1) := by
  induction steps generalizing st with
  | nil => simp [processMedia, countInits]
  | cons p rest ih =>
      obtain ⟨sessions, msg⟩ := p
      have h1 := mediaStep_pot sessions st msg
      have h2 := ih (mediaStep sessions st msg).1
      simp only [processMedia, countInits_append]
      omega

theorem mediaStep_inited (sessions : SessionTable) (msg : MediaMessage) :
    mediaStep sessions (MediaConnState.mk true) msg = (MediaConnState.mk true, []) := by
  simp [mediaStep]

theorem processMedia_inited (steps : List (SessionTable × MediaMessage)) :
    processMedia (MediaConnState.mk true) steps = (MediaConnState.mk true, []) := by
  induction steps with
  | nil => rfl
  | cons p rest ih =>
      obtain ⟨sessions, msg⟩ := p
      simp [processMedia, mediaStep_inited, ih]

/-- C7: over any sequence of media-plane messages on one connection (each
processed against the session table current at its arrival), the connection
is handed to the session's media-bridge entry point at most once; and once
the per-connection flag is set, every further message — in particular a
second `start` — is ignored, producing no effect at all. -/
theorem c7_media_init_at_most_once
    (steps steps2 : List (SessionTable × MediaMessage)) :
    countInits (processMedia (MediaConnState.mk false) steps).2 ≤ 1 ∧
    processMedia (MediaConnState.mk true) steps2 = (MediaConnState.mk true, []) := by
  constructor
  · have h := processMedia_pot steps (MediaConnState.mk false)
    cases hf : (processMedia (MediaConnState.mk false) steps).1.sessionInit <;>
      · rw [hf] at h; simp at h ⊢; omega
  · exact processMedia_inited steps2

/-- C8: a `/twilio/status` webhook reporting `in-progress` performs no
session-method invocation and no broadcast — it never by itself drives any
status transition, in particular not to `connected`; moreover, for every
status webhook whatsoever, the handler never invokes
`updateStatus "connected"`: the `connected` transition can only come from
the media-bridge attach path. -/
theorem c8_in_progress_ignored (validateSig : String → Bool)
    (sessions : SessionTable) (sig cid : Option String) :
    (handleTwilioStatus validateSig sessions
        (TwilioStatusRequest.mk sig cid "in-progress")).actions = [] ∧
    (handleTwilioStatus validateSig sessions
        (TwilioStatusRequest.mk sig cid "in-progress")).broadcasts = [] ∧
    ∀ req : TwilioStatusRequest,
      ((handleTwilioStatus validateSig sessions req).actions.all
        (fun a => a.2 ≠ SessionAction.updateStatus "connected")) = true := by
  have hdispatch : ∀ req : TwilioStatusRequest,
      ((twilioStatusDispatch sessions req).actions.all
        (fun a => a.2 ≠ SessionAction.updateStatus "connected")) = true := by
    intro req
    unfold twilioStatusDispatch
    rcases req.callId with _ | cid3
    · simp
    · by_cases hq : cid3 = ""
      · simp [hq]
      · simp only [hq, if_false]
        cases hg : getSession sessions cid3 with
        | none => simp
        | some sd =>
            by_cases h1 : req.callStatus = "ringing"
            · simp [h1]
            · by_cases h2 : req.callStatus = "completed" ∨ req.callStatus = "busy" ∨
                  req.callStatus = "failed" ∨ req.callStatus = "no-answer"
              · have hne : req.callStatus ≠ "connected" := by
                  rcases h2 with h | h | h | h <;> rw [h] <;> decide
                simp [h1, h2, hne]
              · simp [h1, h2]
  have hip : ∀ cid2 : Option String,
      twilioStatusDispatch sessions (TwilioStatusRequest.mk sig cid2 "in-progress") =
        StatusResult.mk 200 [] [] := by
    intro cid2
    unfold twilioStatusDispatch
    rcases cid2 with _ | cid3
    · rfl
    · by_cases hq : cid3 = ""
      · simp [hq]
      · simp only [hq, if_false]
        cases hg : getSession sessions cid3 with
        | none => simp
        | some sd => simp
  refine ⟨?_, ?_, ?_⟩
  · unfold handleTwilioStatus
    split
    · rfl
    · rw [hip cid]
  · unfold handleTwilioStatus
    split
    · rfl
    · rw [hip cid]
  · intro req
    unfold handleTwilioStatus
    split
    · rfl
    · exact hdispatch req

theorem broadcastToControl_all_open (clients : List ControlClient)
    (m : ServerMessage) (h : ∀ c ∈ clients, c.readyState = ReadyState.OPEN) :
    broadcastToControl clients m =
      clients.map (fun c => { c with inbox := c.inbox ++ [m] }) := by
  unfold broadcastToControl sendTo
  apply List.map_congr_left
  intro c hc
  rw [if_pos (h c hc)]

/-- C9: when every client in the connected-client set has an open socket,
a sequence of session-originated broadcasts is delivered to every one of
them exactly once each and in emission order: each client's delivery
sequence afterwards is its previous sequence followed by the emitted
messages in the order they were emitted. -/
theorem c9_broadcast_order (clients : List ControlClient)
    (msgs : List ServerMessage)
    (h : ∀ c ∈ clients, c.readyState = ReadyState.OPEN) :
    broadcastAll clients msgs =
      clients.map (fun c => { c with inbox := c.inbox ++ msgs }) := by
  induction msgs generalizing clients with
  | nil =>
      have hid : (fun c : ControlClient =>
          ({ c with inbox := c.inbox ++ ([] : List ServerMessage) })) = id := by
        funext c
        cases c
        simp
      rw [broadcastAll, hid, List.map_id]
  | cons m ms ih =>
      rw [broadcastAll, broadcastToControl_all_open clients m h]
      rw [ih _ ?_]
      · rw [List.map_map]
        apply List.map_congr_left
        intro c _
        cases c
        simp
      · intro c hc
        rcases List.mem_map.mp hc with ⟨c', hc', rfl⟩
        exact h c' hc'

/-- Witness for C9 at a concrete input: two open control clients with empty
delivery sequences; one `call_started` broadcast reaches both exactly once. -/
theorem c9_broadcast_order_witness :
    (∀ c ∈ [ControlClient.mk 0 ReadyState.OPEN [],
            ControlClient.mk 1 ReadyState.OPEN []],
        c.readyState = ReadyState.OPEN) ∧
    broadcastAll
      [ControlClient.mk 0 ReadyState.OPEN [], ControlClient.mk 1 ReadyState.OPEN []]
      [ServerMessage.call_started "c1" "CA1"] =
      [ControlClient.mk 0 ReadyState.OPEN [ServerMessage.call_started "c1" "CA1"],
       ControlClient.mk 1 ReadyState.OPEN [ServerMessage.call_started "c1" "CA1"]] :=
  ⟨by decide, by
    rw [c9_broadcast_order _ _ (by decide)]
    rfl⟩

/-- C10: under one broadcast, the set of control clients maps pairwise to
its new state such that a client's delivery sequence gains the message if
and only if its socket's `readyState` is `OPEN` at that moment; a client
whose socket is still connecting or already closing is left completely
unchanged — silently skipped, with nothing queued and no retry. -/
theorem c10_broadcast_iff_open (clients : List ControlClient)
    (msg : ServerMessage) :
    List.Forall₂
      (fun c c' =>
        (c'.inbox = c.inbox ++ [msg] ↔ c.readyState = ReadyState.OPEN) ∧
        (c.readyState ≠ ReadyState.OPEN → c' = c))
      clients (broadcastToControl clients msg) := by
  induction clients with
  | nil => exact List.Forall₂.nil
  | cons c cs ih =>
      refine List.Forall₂.cons ?_ ih
      by_cases hc : c.readyState = ReadyState.OPEN
      · constructor
        · simp [hc, sendTo]
        · intro hno
          exact absurd hc hno
      · constructor
        · simp only [if_neg hc]
          constructor
          · intro heq
            have hlen := congrArg List.length heq
            simp at hlen
          · intro hop
            exact absurd hop hc
        · intro _
          simp only [if_neg hc]

end Concierge
